import Mathlib

/-!
# Verification of the bank-statement extraction engine

Shallow embedding of `src/services/excelParser.js`: the two parser classes
`BankStatementExcelParser` (spreadsheet front end, namespace `ExcelP`) and
`BankStatementParser` (free-text/PDF front end, namespace `PdfP`), together
with the JavaScript primitives they rely on (string trimming, `parseInt`,
`parseFloat`, substring search, regular-expression matching with JS
backtracking semantics, and the `Date` constructor over the proleptic
Gregorian calendar).

Modelling conventions:
* JS strings are `String`/`List Char`; character classes (`\s`, `\w`, case
  mapping) are modelled on their ASCII fragment, which covers every string
  the engine manipulates (cleaned descriptions are ASCII by construction).
* JS numbers are modelled as exact rationals `ℚ`; every numeric literal the
  claims mention (450.00, 1234.50, 100.00) is exactly representable as a
  binary double, so no rounding is lost.
* `Date` values are rationals counting milliseconds since the Unix epoch,
  with the constructor's local-time offset taken as zero (UTC); time-of-day
  is not significant for any claim.
* A fallible JS value (`undefined`, a missing cell, an Invalid Date) is an
  `Option`.
* The clock (`new Date()` with no arguments) is an explicit parameter
  `now : ℚ` threaded through the functions that consult it.
-/

/-! ## JS character and string primitives (ASCII fragment) -/

/-- ASCII lower-casing, the fragment of `String.prototype.toLowerCase`
exercised by the engine. -/
def lcChar (c : Char) : Char :=
  if 'A' ≤ c ∧ c ≤ 'Z' then Char.ofNat (c.toNat + 32) else c

def lcList (s : List Char) : List Char := s.map lcChar

def lcStr (s : String) : String := String.mk (lcList s.data)

/-- The ASCII fragment of the JS whitespace class `\s` (space, tab, line
feed, vertical tab, form feed, carriage return). -/
def isJsSpace (c : Char) : Bool :=
  c = ' ' || c = '\t' || c = '\n' || c = '\r' || c.toNat = 11 || c.toNat = 12

/-- JS `\w`: ASCII letters, digits and underscore. -/
def isWordChar (c : Char) : Bool :=
  c.isAlpha || c.isDigit || c = '_'

/-- `String.prototype.trim`. -/
def jsTrim (s : List Char) : List Char :=
  ((s.dropWhile isJsSpace).reverse.dropWhile isJsSpace).reverse

/-- `String.prototype.includes`: `needle` occurs contiguously in `hay`. -/
def containsSub : List Char → List Char → Bool
  | hay, needle =>
    if needle.isPrefixOf hay then true
    else match hay with
      | [] => false
      | _ :: t => containsSub t needle

/-- Case-insensitive containment (both sides lower-cased), the meaning of an
`/i` regex that is an alternation of literals, tested via `.test`. -/
def containsCI (hay needle : String) : Bool :=
  containsSub (lcList hay.data) (lcList needle.data)

def containsAnyCI (hay : String) (needles : List String) : Bool :=
  needles.any (containsCI hay)

/-- First occurrence of `pat` removed from `s` (JS
`String.prototype.replace` with a plain-string pattern and empty
replacement); `s` unchanged when `pat` does not occur. -/
def replaceFirst : List Char → List Char → List Char
  | s, pat =>
    if pat.isPrefixOf s then s.drop pat.length
    else match s with
      | [] => []
      | c :: t => c :: replaceFirst t pat

/-- Digits of a decimal numeral to a natural number. -/
def digitsToNat : List Char → Nat
  | ds => ds.foldl (fun acc c => acc * 10 + (c.toNat - '0'.toNat)) 0

/-- JS `parseInt(s, 10)`: leading whitespace, optional sign, then a maximal
run of decimal digits; `none` models `NaN` (no digits). -/
def jsParseInt (s : List Char) : Option Int :=
  let s := s.dropWhile isJsSpace
  let (sign, s) : Int × List Char :=
    match s with
    | '-' :: t => (-1, t)
    | '+' :: t => (1, t)
    | t => (1, t)
  let ds := s.takeWhile Char.isDigit
  if ds.isEmpty then none else some (sign * (digitsToNat ds : Int))

/-- JS `parseFloat(s)` on its sign/digits/decimal-point fragment (no
exponent forms, which never survive the engine's character stripping):
leading whitespace, optional sign, integer digits, optional `.` and
fraction digits; `none` models `NaN` (no digits at all). -/
def jsParseFloat (s : List Char) : Option ℚ :=
  let s := s.dropWhile isJsSpace
  let (sign, s) : ℚ × List Char :=
    match s with
    | '-' :: t => (-1, t)
    | '+' :: t => (1, t)
    | t => (1, t)
  let intDs := s.takeWhile Char.isDigit
  let rest := s.drop intDs.length
  let fracDs :=
    match rest with
    | '.' :: t => t.takeWhile Char.isDigit
    | _ => []
  if intDs.isEmpty ∧ fracDs.isEmpty then none
  else
    some (sign * ((digitsToNat intDs : ℚ) +
      (digitsToNat fracDs : ℚ) / (10 : ℚ) ^ fracDs.length))

/-! ## Cell values and JS coercions -/

/-- A spreadsheet cell as delivered by `sheet_to_json` with `defval: ''`:
a string or a number. -/
inductive CellValue where
  | str (s : String)
  | num (q : ℚ)
deriving DecidableEq, Repr

/-- JS truthiness of a present cell value: `''` and `0` are falsy. -/
def truthyCell : CellValue → Bool
  | .str s => s ≠ ""
  | .num q => q ≠ 0

/-- JS truthiness of a possibly-`undefined` value. -/
def truthy : Option CellValue → Bool
  | none => false
  | some v => truthyCell v

/-- Decimal rendering of a rational: sign, integer digits, and up to 20
fraction digits. Models JS number-to-string conversion on the engine's
inputs; the only property the engine reads off the rendering is the
presence of a `-` character, which this model reproduces for every number
outside the exponent-notation ranges (|q| < 1e-6 or ≥ 1e21). -/
def ratToString (q : ℚ) : String :=
  let n := q.num.natAbs
  let d := q.den
  let intPart := (Nat.toDigits 10 (n / d)).map id
  let rec fracDigits : Nat → Nat → List Char
    | _, 0 => []
    | r, k + 1 =>
      if r = 0 then []
      else
        let r10 := r * 10
        Char.ofNat ('0'.toNat + r10 / d) :: fracDigits (r10 % d) k
  let frac := fracDigits (n % d) 20
  String.mk ((if q < 0 then ['-'] else []) ++ intPart ++
    (if frac.isEmpty then [] else '.' :: frac))

/-- JS `String(v)` for a cell value. -/
def jsString : CellValue → String
  | .str s => s
  | .num q => ratToString q

/-- JS `String(v || '')` for a possibly-`undefined` value. -/
def jsStringOr (v : Option CellValue) : String :=
  match v with
  | some c => if truthyCell c then jsString c else ""
  | none => ""

/-- JS `row[i]` with an `Int` index: `undefined` out of bounds (in
particular for the sentinel index `-1`). -/
def rowGet (row : List CellValue) (i : Int) : Option CellValue :=
  if 0 ≤ i then row.get? i.toNat else none

/-! ## The JS `Date` model -/

/-- Day number of a proleptic-Gregorian civil date, with day 0 =
1970-01-01 (the standard days-from-civil computation). -/
def daysFromCivil (y m d : Int) : Int :=
  let y := y - (if m ≤ 2 then 1 else 0)
  let era := Int.fdiv y 400
  let yoe := y - era * 400
  let mp := Int.emod (m + 9) 12
  let doy := Int.fdiv (153 * mp + 2) 5 + d - 1
  let doe := yoe * 365 + Int.fdiv yoe 4 - Int.fdiv yoe 100 + doy
  era * 146097 + doe - 719468

/-- The day encoded by the JS constructor `new Date(y, monthIndex, d)`:
years 0–99 map to 1900+y, out-of-range month indices and days roll over. -/
def jsMakeDay (y m d : Int) : Int :=
  let yy := if 0 ≤ y ∧ y ≤ 99 then 1900 + y else y
  daysFromCivil (yy + Int.fdiv m 12) (Int.emod m 12 + 1) 1 + (d - 1)

/-- `new Date(y, monthIndex, d).getTime()` in milliseconds (local offset
modelled as zero); out-of-range results become Invalid Dates via
`jsTimeClip`. -/
def newDateYMD (y m d : Int) : ℚ :=
  (jsMakeDay y m d : ℚ) * 86400000

/-- Truncation toward zero. -/
def truncQ (q : ℚ) : Int := if q < 0 then q.ceil else q.floor

/-- ECMA-262 `TimeClip`: a time value farther than 8.64e15 ms from the
epoch is an Invalid Date (`none`); otherwise the value truncated to an
integer count of milliseconds. -/
def jsTimeClip (q : ℚ) : Option ℚ :=
  if |q| ≤ (8640000000000000 : ℚ) then some ((truncQ q : ℚ)) else none

/-- Modelled from ECMA-262: the mandated ISO-8601 `YYYY-MM-DD` fragment of
the otherwise implementation-defined `Date.parse`; every other string is
rejected (`none` = Invalid Date). -/
def dateParseModel (s : List Char) : Option ℚ :=
  match s with
  | [y1, y2, y3, y4, '-', m1, m2, '-', d1, d2] =>
    if [y1, y2, y3, y4, m1, m2, d1, d2].all Char.isDigit then
      let y := digitsToNat [y1, y2, y3, y4]
      let m := digitsToNat [m1, m2]
      let d := digitsToNat [d1, d2]
      if 1 ≤ m ∧ m ≤ 12 ∧ 1 ≤ d ∧ d ≤ 31 then
        some ((daysFromCivil y m d : ℚ) * 86400000)
      else none
    else none
  | _ => none

example : daysFromCivil 1970 1 1 = 0 := by decide
example : daysFromCivil 2024 3 1 = 19783 := by decide

/-! ## A backtracking regular-expression engine (JS semantics)

Alternation tries branches left to right, greedy repetition tries longer
matches first, lazy repetition shorter first, and a repetition whose body
matched without consuming input stops iterating — the observable behavior
of the JS regexes in the source on the constructs they use. -/

inductive RE where
  | emp : RE
  | ch (p : Char → Bool) : RE
  | cat (a b : RE) : RE
  | alt (a b : RE) : RE
  | repG (r : RE) : RE
  | repL (r : RE) : RE
  | group (i : Nat) (r : RE) : RE

/-- Matcher state: the unconsumed suffix and the captures recorded so far
(most recent first). -/
structure MSt where
  rest : List Char
  caps : List (Nat × String)

/-- Repetition loop: `body` is the matcher of the repetition body, `fuel`
bounds the number of iterations (input length suffices because every
iteration must consume). -/
def repRun (body : MSt → (MSt → Option MSt) → Option MSt) :
    Nat → Bool → MSt → (MSt → Option MSt) → Option MSt
  | 0, _, st, k => k st
  | fuel + 1, greedy, st, k =>
    if greedy then
      (body st (fun st' =>
        if st'.rest.length < st.rest.length then
          repRun body fuel true st' k
        else k st')) <|> k st
    else
      k st <|> body st (fun st' =>
        if st'.rest.length < st.rest.length then
          repRun body fuel false st' k
        else none)

/-- CPS backtracking matcher: try to match `r` at the head of `st.rest`,
calling `k` on every candidate residual state in JS preference order and
returning the first success. -/
def mrun : RE → MSt → (MSt → Option MSt) → Option MSt
  | .emp, st, k => k st
  | .ch p, st, k =>
    match st.rest with
    | [] => none
    | c :: cs => if p c then k ⟨cs, st.caps⟩ else none
  | .cat a b, st, k => mrun a st (fun st1 => mrun b st1 k)
  | .alt a b, st, k => mrun a st k <|> mrun b st k
  | .repG r, st, k => repRun (mrun r) (st.rest.length + 1) true st k
  | .repL r, st, k => repRun (mrun r) (st.rest.length + 1) false st k
  | .group i r, st, k =>
    mrun r st (fun st' =>
      k ⟨st'.rest,
        (i, String.mk (st.rest.take (st.rest.length - st'.rest.length)))
          :: st'.caps⟩)

/-- Match `r` at the start of `s`: consumed length and captures of the
preferred match. -/
def matchAt (r : RE) (s : List Char) : Option (Nat × List (Nat × String)) :=
  (mrun r ⟨s, []⟩ some).map (fun st => (s.length - st.rest.length, st.caps))

/-- Leftmost search: the first start position (scanning left to right)
where `r` matches, with the match length and captures. -/
def goSearch (r : RE) : List Char → Nat → Option (Nat × Nat × List (Nat × String))
  | [], idx => (matchAt r []).map (fun p => (idx, p.1, p.2))
  | c :: t, idx =>
    match matchAt r (c :: t) with
    | some (len, cp) => some (idx, len, cp)
    | none => goSearch r t (idx + 1)

/-- `regex.test(s)`. -/
def reTest (r : RE) (s : List Char) : Bool :=
  (goSearch r s 0).isSome

/-- Anchored full-string test, the meaning of `/^pat$/.test(s)`:
backtracks until the whole input is consumed. -/
def reFullTest (r : RE) (s : List Char) : Bool :=
  (mrun r ⟨s, []⟩ (fun st => if st.rest.isEmpty then some st else none)).isSome

/-- `s.match(re)` for a non-global regex with `ng` capture groups: the JS
match array `[full, g1, …, gng]` (an unmatched group reads as `""`, which
never arises for the source's patterns). -/
def jsMatch (r : RE) (ng : Nat) (s : List Char) : Option (List String) :=
  (goSearch r s 0).map (fun res =>
    match res with
    | (st, len, cp) =>
      String.mk ((s.drop st).take len) ::
        (List.range ng).map (fun i => ((cp.lookup (i + 1)).getD "")))

/-- Iterate `[...s.matchAll(re)]` for a `/g` regex: repeated leftmost
search, resuming after each match (advancing one character past an empty
match, which the source's patterns never produce). -/
def goAll (r : RE) (ng : Nat) : Nat → List Char → List (List String)
  | 0, _ => []
  | fuel + 1, s =>
    match goSearch r s 0 with
    | none => []
    | some (st, len, cp) =>
      (String.mk ((s.drop st).take len) ::
        (List.range ng).map (fun i => ((cp.lookup (i + 1)).getD ""))) ::
        goAll r ng fuel (s.drop (st + max len 1))

def jsMatchAll (r : RE) (ng : Nat) (s : List Char) : List (List String) :=
  goAll r ng (s.length + 1) s

/-! Regex construction helpers for the patterns appearing in the source. -/

/-- A case-sensitive literal. -/
def reLit (s : String) : RE :=
  s.data.foldr (fun c acc => RE.cat (RE.ch (fun x => x = c)) acc) RE.emp

/-- A case-insensitive literal (an `/i` pattern). -/
def reLitCI (s : String) : RE :=
  s.data.foldr (fun c acc => RE.cat (RE.ch (fun x => lcChar x = lcChar c)) acc) RE.emp

/-- `\d`. -/
def reD : RE := RE.ch Char.isDigit

/-- `\s`. -/
def reS : RE := RE.ch isJsSpace

/-- `.` (any character except a line terminator). -/
def reDot : RE := RE.ch (fun c => !(c = '\n' || c = '\r'))

/-- `r+` (greedy). -/
def rePlus (r : RE) : RE := RE.cat r (RE.repG r)

/-- `r+?` (lazy). -/
def rePlusL (r : RE) : RE := RE.cat r (RE.repL r)

/-- `r?` (greedy). -/
def reOpt (r : RE) : RE := RE.alt r RE.emp

/-- `r{n}`. -/
def reN (r : RE) : Nat → RE
  | 0 => RE.emp
  | n + 1 => RE.cat r (reN r n)

/-- `\d{1,2}` (greedy: two digits preferred). -/
def reD12 : RE := RE.alt (RE.cat reD reD) reD

def reCatL (l : List RE) : RE := l.foldr RE.cat RE.emp

example : reTest (reLitCI "dr") "Withdrawal".data = true := by decide
example : reTest (reLit "TFR") "abc tfr".data = false := by decide
example :
    jsMatch (reCatL [RE.group 1 reD12, reLit "/", RE.group 2 reD12]) 2
      "x 01/3 y".data = some ["01/3", "01", "3"] := by decide

/-! ## Pattern tables (alternations of literals, with `.*` gaps)

Every payment-method / category / exclusion regex in the source is an `/i`
alternation whose branches are literals, except for `cash.*withdrawal` and
`transfer.*own.*account`. A branch is modelled as the list of its literals
separated by `.*`; since `.` excludes line terminators, such a branch
matches iff some line-terminator-free segment of the subject contains the
literals consecutively in order. -/

/-- The suffix just after the first occurrence of `pat`, if any. -/
def dropAfterFirst : List Char → List Char → Option (List Char)
  | s, pat =>
    if pat.isPrefixOf s then some (s.drop pat.length)
    else match s with
      | [] => none
      | _ :: t => dropAfterFirst t pat

/-- The parts occur in order, each beyond the previous one. -/
def seqCont : List Char → List (List Char) → Bool
  | _, [] => true
  | s, p :: ps =>
    match dropAfterFirst s p with
    | none => false
    | some r => seqCont r ps

/-- Split at line terminators (the characters `.` does not match). -/
def splitSegments : List Char → List (List Char)
  | [] => [[]]
  | c :: t =>
    if c = '\n' || c = '\r' then [] :: splitSegments t
    else
      match splitSegments t with
      | [] => [[c]]
      | seg :: rest => (c :: seg) :: rest

/-- One alternation branch (literals separated by `.*`) tested against an
already lower-cased subject. -/
def branchTest (subject : List Char) (branch : List String) : Bool :=
  (splitSegments subject).any (fun seg => seqCont seg (branch.map String.data))

/-- `/b1|b2|…/i.test(subject)` for branches of the above shape; the caller
passes the subject already lower-cased. -/
def patTest (subject : List Char) (branches : List (List String)) : Bool :=
  branches.any (branchTest subject)

/-- `/^\s*word/i.test(subject)`: optional leading whitespace then the
literal (no end anchor in the source). -/
def startsWithWSWord (s : List Char) (w : String) : Bool :=
  w.data.isPrefixOf (s.dropWhile isJsSpace)

/-! ## Transactions -/

structure RawData where
  date : Option CellValue
  description : Option CellValue
  amount : Option CellValue
  type : Option CellValue
deriving DecidableEq, Repr

/-- The engine's output record. `date` is `none` exactly for an Invalid
Date (possible only on the PDF path); `rawData` is `none` when the
constructing code supplies no `rawData` field. -/
structure Transaction where
  date : Option ℚ
  description : String
  amount : ℚ
  paymentMethod : String
  suggestedCategory : String
  type : String
  rawData : Option RawData
deriving DecidableEq, Repr

/-! ## `BankStatementExcelParser` (spreadsheet front end) -/

namespace ExcelP

/-- `this.paymentMethodPatterns`, in insertion order. -/
def paymentMethodPatterns : List (String × List (List String)) :=
  [("UPI", [["upi"], ["paytm"], ["gpay"], ["phonepe"], ["bhim"], ["@"], ["/pay"]]),
   ("Card", [["card"], ["visa"], ["mastercard"], ["atm"], ["pos"]]),
   ("Bank", [["neft"], ["rtgs"], ["imps"], ["transfer"], ["cheque"], ["chq"], ["tfr"]]),
   ("Cash", [["cash"], ["withdrawal"], ["wd"]])]

/-- `this.categoryPatterns`, in insertion order. -/
def categoryPatterns : List (String × List (List String)) :=
  [("Food & Dining", [["restaurant"], ["food"], ["cafe"], ["pizza"], ["burger"], ["swiggy"],
      ["zomato"], ["dominos"], ["mcdonald"], ["kfc"], ["subway"], ["dining"]]),
   ("Transportation", [["uber"], ["ola"], ["taxi"], ["petrol"], ["diesel"], ["fuel"],
      ["transport"], ["bus"], ["train"], ["metro"], ["parking"]]),
   ("Shopping", [["amazon"], ["flipkart"], ["myntra"], ["shopping"], ["mall"], ["store"],
      ["purchase"], ["buy"], ["shop"]]),
   ("Entertainment", [["movie"], ["cinema"], ["netflix"], ["spotify"], ["game"],
      ["entertainment"], ["ticket"], ["concert"]]),
   ("Utilities", [["electricity"], ["water"], ["gas"], ["internet"], ["mobile"], ["phone"],
      ["bill"], ["recharge"]]),
   ("Healthcare", [["hospital"], ["doctor"], ["medical"], ["pharmacy"], ["health"],
      ["medicine"], ["clinic"]]),
   ("Education", [["school"], ["college"], ["university"], ["education"], ["course"],
      ["book"], ["tuition"]]),
   ("Groceries", [["grocery"], ["supermarket"], ["mart"], ["vegetable"], ["fruit"],
      ["milk"], ["bread"]]),
   ("ATM Withdrawal", [["atm"], ["withdrawal"], ["cash"]]),
   ("Bank Charges", [["charge"], ["fee"], ["penalty"], ["interest"], ["maintenance"]])]

def dateHeaders : List String :=
  ["date", "transaction date", "value date", "posting date", "txn date"]

def descriptionHeaders : List String :=
  ["description", "particulars", "narration", "transaction details", "remarks"]

def amountHeaders : List String :=
  ["amount", "debit", "withdrawal", "withdrawals", "dr"]

def typeHeaders : List String :=
  ["type", "dr/cr", "transaction type", "tran type"]

/-- The result of `detectColumns`: four column indices (`-1` = unresolved)
and the header-row index. -/
structure ColumnMapping where
  dateColumn : Int
  descriptionColumn : Int
  amountColumn : Int
  typeColumn : Int
  headerRow : Int
deriving DecidableEq, Repr

/-- `String(cell).toLowerCase().trim()`. -/
def cellHeaderText (cell : CellValue) : String :=
  String.mk (jsTrim (lcStr (jsString cell)).data)

/-- The four exact header-name updates for one cell. -/
def applyExact (cv : String) (col : Nat) (m : ColumnMapping) : ColumnMapping :=
  let m := if cv = "date" then { m with dateColumn := (col : Int) } else m
  let m := if cv = "particulars" ∨ cv = "narration" then
    { m with descriptionColumn := (col : Int) } else m
  let m := if cv = "withdrawals" ∨ cv = "debit" ∨ cv = "dr" then
    { m with amountColumn := (col : Int) } else m
  let m := if cv = "dr/cr" ∨ cv = "type" ∨ cv = "tran type" then
    { m with typeColumn := (col : Int) } else m
  m

/-- The four fuzzy (substring) fallback updates for one cell; each fires
only while its field is still unresolved. -/
def applyFuzzy (cv : String) (col : Nat) (m : ColumnMapping) : ColumnMapping :=
  let m := if m.dateColumn = -1 ∧ dateHeaders.any (fun h => containsSub cv.data h.data) then
    { m with dateColumn := (col : Int) } else m
  let m := if m.descriptionColumn = -1 ∧
      descriptionHeaders.any (fun h => containsSub cv.data h.data) then
    { m with descriptionColumn := (col : Int) } else m
  let m := if m.amountColumn = -1 ∧ amountHeaders.any (fun h => containsSub cv.data h.data) then
    { m with amountColumn := (col : Int) } else m
  let m := if m.typeColumn = -1 ∧ typeHeaders.any (fun h => containsSub cv.data h.data) then
    { m with typeColumn := (col : Int) } else m
  m

def cellPass (fuzzy : Bool) (m : ColumnMapping) (p : Nat × CellValue) : ColumnMapping :=
  let cv := cellHeaderText p.2
  let m := applyExact cv p.1 m
  if fuzzy then applyFuzzy cv p.1 m else m

/-- One row of the header scan (cells left to right); `fuzzy := false` is
the exact-match-only pass used by the no-header fallback. -/
def rowPass (fuzzy : Bool) (row : List CellValue) (m : ColumnMapping) : ColumnMapping :=
  row.enum.foldl (cellPass fuzzy) m

/-- How many of the four column indices are resolved. -/
def foundCount (m : ColumnMapping) : Nat :=
  ([m.dateColumn, m.descriptionColumn, m.amountColumn, m.typeColumn].filter (· ≠ -1)).length

/-- The header-scan loop of `detectColumns`: empty rows are skipped, the
mapping accumulates across rows, and the loop breaks at the first row
after which at least two fields are resolved. -/
def detectScan : List (List CellValue) → Nat → ColumnMapping → ColumnMapping
  | [], _, m => m
  | row :: rest, idx, m =>
    if row.isEmpty then detectScan rest (idx + 1) m
    else
      let m' := rowPass true row m
      if 2 ≤ foundCount m' then { m' with headerRow := (idx : Int) }
      else detectScan rest (idx + 1) m'

/-- `detectColumns`: scan at most the first 10 rows; if no row qualified,
force `headerRow := 0` and re-run the exact pass over the first row. -/
def detectColumns (jsonData : List (List CellValue)) : ColumnMapping :=
  let m := detectScan (jsonData.take 10) 0 ⟨-1, -1, -1, -1, -1⟩
  if m.headerRow = -1 then
    rowPass false (jsonData.headD []) { m with headerRow := 0 }
  else m

/-- The three string date formats tried by `parseDate`, with their regex
source texts (the source text drives the `includes('(\d{4})')` branch). -/
def sepSD : RE := RE.ch (fun c => c = '/' || c = '-')

def fmt1 : RE := reCatL [RE.group 1 reD12, sepSD, RE.group 2 reD12, sepSD, RE.group 3 (reN reD 4)]

def fmt2 : RE := reCatL [RE.group 1 (reN reD 4), sepSD, RE.group 2 reD12, sepSD, RE.group 3 reD12]

def fmt3 : RE := reCatL [RE.group 1 reD12, sepSD, RE.group 2 reD12, sepSD, RE.group 3 (reN reD 2)]

def fmt1Src : String := "(\\d\x7b1,2\x7d)[\\/\\-](\\d\x7b1,2\x7d)[\\/\\-](\\d\x7b4\x7d)"

def fmt2Src : String := "(\\d\x7b4\x7d)[\\/\\-](\\d\x7b1,2\x7d)[\\/\\-](\\d\x7b1,2\x7d)"

def fmt3Src : String := "(\\d\x7b1,2\x7d)[\\/\\-](\\d\x7b1,2\x7d)[\\/\\-](\\d\x7b2\x7d)"

def formats : List (RE × String) := [(fmt1, fmt1Src), (fmt2, fmt2Src), (fmt3, fmt3Src)]

/-- The needle of the `format.source.includes('(\d{4})')` check. -/
def yyyyNeedle : String := "(\\d\x7b4\x7d)"

/-- The format loop of `parseDate`: on the first matching format, branch
on whether the format's source text contains `(\d{4})` — destructuring
the groups as year/month/day when it does, day/month/year (with the
two-digit pivot at 50) when it does not. The outer `Option` is "some
format matched"; the inner one is date validity. -/
def tryFormats : List (RE × String) → List Char → Option (Option ℚ)
  | [], _ => none
  | (re, src) :: rest, ds =>
    match jsMatch re 3 ds with
    | none => tryFormats rest ds
    | some mtch =>
      let g1 := mtch.getD 1 ""
      let g2 := mtch.getD 2 ""
      let g3 := mtch.getD 3 ""
      if containsSub src.data yyyyNeedle.data then
        some (jsTimeClip (newDateYMD ((jsParseInt g1.data).getD 0)
          ((jsParseInt g2.data).getD 0 - 1) ((jsParseInt g3.data).getD 0)))
      else
        let yearN := (jsParseInt g3.data).getD 0
        let fullYear :=
          if g3.length = 2 then (if yearN < 50 then 2000 + yearN else 1900 + yearN)
          else yearN
        some (jsTimeClip (newDateYMD fullYear ((jsParseInt g2.data).getD 0 - 1)
          ((jsParseInt g1.data).getD 0)))

/-- `parseDate` (spreadsheet front end); `none` is an Invalid Date (the
format branch returns its constructed `Date` unchecked — only the final
locale-parse fallback replaces an invalid result by the current date). -/
def parseDate (now : ℚ) (dateValue : Option CellValue) : Option ℚ :=
  if truthy dateValue = false then some now
  else
    match dateValue with
    | some (.num n) => jsTimeClip (newDateYMD 1900 0 1 + (n - 1) * 86400000)
    | some (.str s) =>
      let dateStr := jsTrim s.data
      match tryFormats formats dateStr with
      | some t => t
      | none => some ((dateParseModel dateStr).getD now)
    | none => some now

/-- `parseAmount` (spreadsheet front end). -/
def parseAmount (amountValue : Option CellValue) : ℚ :=
  if truthy amountValue = false then 0
  else
    match amountValue with
    | some (.num n) => |n|
    | some (.str s) =>
      let amountStr := jsTrim s.data
      let cleaned :=
        ((amountStr.filter (fun c =>
            !(c = '₹' || c = '$' || c = '€' || c = '£' || c = ',' || isJsSpace c))).filter
          (fun c => !(c = '(' || c = ')'))).filter (fun c => !(c = '-'))
      match jsParseFloat cleaned with
      | none => 0
      | some q => |q|
    | none => 0

/-- Collapse every run of whitespace to a single space
(`replace(/\s+/g, ' ')`). -/
def collapseAux : Bool → List Char → List Char
  | _, [] => []
  | prevSpace, c :: t =>
    if isJsSpace c then
      if prevSpace then collapseAux true t else ' ' :: collapseAux true t
    else c :: collapseAux false t

def collapseWs (s : List Char) : List Char := collapseAux false s

/-- The character allow-list of the spreadsheet `cleanDescription`
(`[^\w\s@\/\-\.\(\)]` removed). -/
def allowedChar (c : Char) : Bool :=
  isWordChar c || isJsSpace c || c = '@' || c = '/' || c = '-' || c = '.' ||
    c = '(' || c = ')'

/-- `cleanDescription` (spreadsheet front end): trim, collapse whitespace,
strip to the allow-list, cap at 100 characters, trim. -/
def cleanDescription (description : Option CellValue) : String :=
  match description with
  | some v =>
    if truthyCell v = false then "Transaction"
    else
      let desc := jsTrim (jsString v).data
      String.mk (jsTrim (((collapseWs desc).filter allowedChar).take 100))
  | none => "Transaction"

/-- `isWithdrawal`: the debit-classifier priority cascade. -/
def isWithdrawal (typeValue amountValue : Option CellValue) (description : String) : Bool :=
  let typeStr := (lcStr (jsStringOr typeValue)).data
  let descStr := (lcStr description).data
  if containsSub typeStr "dr".data || containsSub typeStr "debit".data then true
  else if containsSub typeStr "cr".data || containsSub typeStr "credit".data then false
  else if containsSub (jsStringOr amountValue).data "-".data then true
  else if containsSub descStr "withdrawal".data || containsSub descStr "debit".data ||
      containsSub descStr "payment".data then true
  else if containsSub descStr "salary".data || containsSub descStr "interest".data ||
      containsSub descStr "credit".data || containsSub descStr "deposit".data then false
  else true

/-- `determinePaymentMethod` (spreadsheet front end). -/
def determinePaymentMethod (description : String) : String :=
  let desc := lcStr description
  match paymentMethodPatterns.find? (fun pr => patTest desc.data pr.2) with
  | some pr => pr.1
  | none =>
    if containsSub desc.data "atm".data || containsSub desc.data "cash".data then "Cash"
    else if containsSub desc.data "card".data || containsSub desc.data "pos".data then "Card"
    else if containsSub desc.data "upi".data || containsSub desc.data "@".data then "UPI"
    else "Bank"

/-- `suggestCategory` (spreadsheet front end). -/
def suggestCategory (description : String) : String :=
  let desc := lcStr description
  match categoryPatterns.find? (fun pr => patTest desc.data pr.2) with
  | some pr => pr.1
  | none => "Bank Transactions"

/-- One iteration of the `extractTransactions` row loop. -/
def rowToTx (now : ℚ) (m : ColumnMapping) (row : List CellValue) : Option Transaction :=
  if row.isEmpty then none
  else
    let dateValue := rowGet row m.dateColumn
    let descriptionValue := rowGet row m.descriptionColumn
    let amountValue := rowGet row m.amountColumn
    let typeValue := rowGet row m.typeColumn
    if truthy dateValue = false ∨ truthy amountValue = false then none
    else
      let description := cleanDescription descriptionValue
      let amount := parseAmount amountValue
      if isWithdrawal typeValue amountValue description ∧ 0 < amount then
        some { date := parseDate now dateValue,
               description := description,
               amount := amount,
               paymentMethod := determinePaymentMethod description,
               suggestedCategory := suggestCategory description,
               type := "withdrawal",
               rawData := some ⟨dateValue, descriptionValue, amountValue, typeValue⟩ }
      else none

/-- `extractTransactions` (spreadsheet front end). -/
def extractTransactions (now : ℚ) (jsonData : List (List CellValue))
    (m : ColumnMapping) : List Transaction :=
  (jsonData.drop (m.headerRow + 1).toNat).filterMap (rowToTx now m)

/-- The exclusion test of `filterWithdrawals` against the (already
lower-cased) description. -/
def excludeHit (desc : List Char) : Bool :=
  patTest desc [["salary"], ["interest"], ["dividend"], ["refund"], ["cashback"]] ||
  patTest desc [["opening balance"], ["closing balance"]] ||
  startsWithWSWord desc "balance" ||
  startsWithWSWord desc "total" ||
  patTest desc [["transfer", "own", "account"]]

/-- `filterWithdrawals` (spreadsheet front end). -/
def filterWithdrawals (ts : List Transaction) : List Transaction :=
  ts.filter fun t =>
    if excludeHit (lcStr t.description).data then false
    else (t.type == "withdrawal") && decide (0 < t.amount)

/-- The spreadsheet engine from decoded rows to final output
(`parseBankStatement` minus the workbook decoding). -/
def engine (now : ℚ) (jsonData : List (List CellValue)) : List Transaction :=
  filterWithdrawals (extractTransactions now jsonData (detectColumns jsonData))

end ExcelP

/-! ## `BankStatementParser` (free-text/PDF front end) -/

/-- Split at the characters satisfying `p` (JS `String.prototype.split`
with a character class, keeping empty segments). -/
def splitOnPred (p : Char → Bool) : List Char → List (List Char)
  | [] => [[]]
  | c :: t =>
    if p c then [] :: splitOnPred p t
    else
      match splitOnPred p t with
      | [] => [[c]]
      | seg :: rest => (c :: seg) :: rest

/-- Case-insensitive literal prefix test (`pat` given lower-cased). -/
def ciPrefix (pat : String) (s : List Char) : Bool :=
  pat.data.isPrefixOf (lcList (s.take pat.length))

namespace PdfP

/-- `this.paymentMethodPatterns` (PDF variant: no `tfr` branch). -/
def paymentMethodPatterns : List (String × List (List String)) :=
  [("UPI", [["upi"], ["paytm"], ["gpay"], ["phonepe"], ["bhim"], ["@"], ["/pay"]]),
   ("Card", [["card"], ["visa"], ["mastercard"], ["atm"], ["pos"]]),
   ("Bank", [["neft"], ["rtgs"], ["imps"], ["transfer"], ["cheque"], ["chq"]]),
   ("Cash", [["cash"], ["withdrawal"], ["wd"]])]

/-- `this.categoryPatterns` (PDF variant; note `cash.*withdrawal`). -/
def categoryPatterns : List (String × List (List String)) :=
  [("Food & Dining", [["restaurant"], ["food"], ["dining"], ["cafe"], ["pizza"], ["burger"],
      ["swiggy"], ["zomato"], ["delivery"]]),
   ("Transportation", [["uber"], ["ola"], ["taxi"], ["metro"], ["bus"], ["transport"],
      ["fuel"], ["petrol"], ["diesel"]]),
   ("Shopping", [["amazon"], ["flipkart"], ["shopping"], ["mall"], ["store"], ["purchase"]]),
   ("Entertainment", [["movie"], ["cinema"], ["netflix"], ["spotify"], ["game"],
      ["entertainment"]]),
   ("Utilities", [["electricity"], ["water"], ["gas"], ["internet"], ["mobile"], ["phone"],
      ["bill"]]),
   ("Healthcare", [["hospital"], ["medical"], ["pharmacy"], ["doctor"], ["health"]]),
   ("Education", [["school"], ["college"], ["university"], ["course"], ["education"],
      ["fees"]]),
   ("Groceries", [["grocery"], ["supermarket"], ["mart"], ["vegetables"], ["fruits"]]),
   ("ATM Withdrawal", [["atm"], ["cash", "withdrawal"], ["wd"]]),
   ("Bank Charges", [["charge"], ["fee"], ["penalty"], ["maintenance"]])]

/-- `[/\-]`. -/
def slashDash : RE := RE.ch (fun c => c = '/' || c = '-')

/-- `\s+`. -/
def wsP : RE := rePlus reS

/-- `\d{2}\/\d{2}\/\d{4}`. -/
def dateDDMMYYYY : RE :=
  reCatL [reN reD 2, reLit "/", reN reD 2, reLit "/", reN reD 4]

/-- `\d{1,2}sep\d{1,2}sep\d{4}` with a fixed separator. -/
def dateFlex (sep : Char) : RE :=
  reCatL [reD12, RE.ch (fun c => c = sep), reD12, RE.ch (fun c => c = sep), reN reD 4]

/-- `\d+\.\d{2}`. -/
def amtPlain : RE := reCatL [rePlus reD, reLit ".", reN reD 2]

/-- `\d+,?\d*\.\d{2}`. -/
def amtComma : RE :=
  reCatL [rePlus reD, reOpt (reLit ","), RE.repG reD, reLit ".", reN reD 2]

/-- `.+?`. -/
def lazyAny : RE := rePlusL reDot

/-- A transaction template: compiled regex, number of capture groups, and
the regex source text (consulted via `pattern.source.includes('TFR')`). -/
structure Template where
  re : RE
  ng : Nat
  src : String

/-- The Federal Bank template (case-sensitive, `/g`). -/
def fedTemplate : Template where
  re := reCatL [RE.group 1 dateDDMMYYYY, wsP, RE.group 2 dateDDMMYYYY, wsP,
    RE.group 3 lazyAny, wsP, reLit "TFR", wsP, RE.group 4 amtPlain, wsP,
    RE.group 5 amtPlain, wsP, RE.group 6 (RE.alt (reLit "Dr") (reLit "Cr"))]
  ng := 6
  src := "(\\d\x7b2\x7d\\/\\d\x7b2\x7d\\/\\d\x7b4\x7d)\\s+(\\d\x7b2\x7d\\/\\d\x7b2\x7d\\/\\d\x7b4\x7d)\\s+(.+?)\\s+TFR\\s+(\\d+\\.\\d\x7b2\x7d)\\s+(\\d+\\.\\d\x7b2\x7d)\\s+(Dr|Cr)"

/-- Generic slash-date template (`/gi`). -/
def genTemplate2 : Template where
  re := reCatL [RE.group 1 (dateFlex '/'), wsP, RE.group 2 lazyAny, wsP,
    RE.group 3 amtComma, wsP, RE.group 4 (RE.alt (reLitCI "Dr") (reLitCI "Debit"))]
  ng := 4
  src := "(\\d\x7b1,2\x7d\\/\\d\x7b1,2\x7d\\/\\d\x7b4\x7d)\\s+(.+?)\\s+(\\d+,?\\d*\\.\\d\x7b2\x7d)\\s+(Dr|Debit)"

/-- Generic dash-date template (`/gi`). -/
def genTemplate3 : Template where
  re := reCatL [RE.group 1 (dateFlex '-'), wsP, RE.group 2 lazyAny, wsP,
    RE.group 3 amtComma, wsP, RE.group 4 (RE.alt (reLitCI "Dr") (reLitCI "Debit"))]
  ng := 4
  src := "(\\d\x7b1,2\x7d-\\d\x7b1,2\x7d-\\d\x7b4\x7d)\\s+(.+?)\\s+(\\d+,?\\d*\\.\\d\x7b2\x7d)\\s+(Dr|Debit)"

/-- Generic marker-before-amount template (`/gi`). -/
def genTemplate4 : Template where
  re := reCatL [RE.group 1 (dateFlex '/'), wsP, RE.group 2 lazyAny, wsP,
    RE.group 3 (RE.alt (reLitCI "Dr") (reLitCI "Debit")), wsP, RE.group 4 amtComma]
  ng := 4
  src := "(\\d\x7b1,2\x7d\\/\\d\x7b1,2\x7d\\/\\d\x7b4\x7d)\\s+(.+?)\\s+(Dr|Debit)\\s+(\\d+,?\\d*\\.\\d\x7b2\x7d)"

def transactionPatterns : List Template :=
  [fedTemplate, genTemplate2, genTemplate3, genTemplate4]

/-- `parseDate` (PDF front end): strip to digits and separators, split;
three parts are taken day-first, anything else goes to the locale parse;
`none` is an Invalid Date. -/
def parseDate (now : ℚ) (dateStr : String) : Option ℚ :=
  if dateStr = "" then some now
  else
    let cleaned := dateStr.data.filter (fun c => c.isDigit || c = '/' || c = '-')
    match splitOnPred (fun c => c = '/' || c = '-') cleaned with
    | [d, m, y] =>
      match jsParseInt d, jsParseInt m, jsParseInt y with
      | some dd, some mm, some yy => jsTimeClip (newDateYMD yy (mm - 1) dd)
      | _, _, _ => none
    | _ => dateParseModel dateStr.data

/-- `parseAmount` (PDF front end): strip commas and whitespace, parse;
`parseFloat(cleaned) || 0` — no absolute value, no parenthesis or sign
stripping. -/
def parseAmount (amountStr : String) : ℚ :=
  if amountStr = "" then 0
  else
    let cleaned := amountStr.data.filter (fun c => !(c = ',' || isJsSpace c))
    match jsParseFloat cleaned with
    | none => 0
    | some q => q

/-- The character allow-list of the PDF `cleanDescription`
(`[^\w\s@\/\-\.]` removed — no parentheses, unlike the spreadsheet one). -/
def allowedCharPdf (c : Char) : Bool :=
  isWordChar c || isJsSpace c || c = '@' || c = '/' || c = '-' || c = '.'

/-- `cleanDescription` (PDF front end): collapse whitespace, strip to the
allow-list, trim, cap at 100 characters. -/
def cleanDescription (description : String) : String :=
  if description = "" then "Transaction"
  else
    String.mk ((jsTrim ((ExcelP.collapseWs description.data).filter allowedCharPdf)).take 100)

/-- `determinePaymentMethod` (PDF front end). -/
def determinePaymentMethod (description : String) : String :=
  let desc := lcStr description
  match paymentMethodPatterns.find? (fun pr => patTest desc.data pr.2) with
  | some pr => pr.1
  | none =>
    if containsSub desc.data "atm".data || containsSub desc.data "withdraw".data then "Cash"
    else if containsSub desc.data "transfer".data || containsSub desc.data "tfr".data then
      "Bank"
    else "Bank"

/-- `suggestCategory` (PDF front end). -/
def suggestCategory (description : String) : String :=
  let desc := lcStr description
  match categoryPatterns.find? (fun pr => patTest desc.data pr.2) with
  | some pr => pr.1
  | none => "Bank Transactions"

/-- `/\d{1,2}[\/\-]\d{1,2}[\/\-]\d{4}/` (a date-shaped token). -/
def dateTok : RE := reCatL [reD12, slashDash, reD12, slashDash, reN reD 4]

/-- Is a part exactly `dr`/`cr`/`debit`/`credit` (case-insensitively)? -/
def drcrFull (part : String) : Bool :=
  let l := lcStr part
  l = "dr" || l = "cr" || l = "debit" || l = "credit"

/-- `parseTransactionMatch`: the Federal-Bank branch (guarded by the
pattern source containing `TFR` and marker `Dr`), falling through to the
generic branch otherwise. -/
def parseTransactionMatch (now : ℚ) (t : Template) (mtch : List String) :
    Option Transaction :=
  if containsSub t.src.data "TFR".data ∧ lcStr (mtch.getD 6 "") = "dr" then
    let date := mtch.getD 1 ""
    let description := mtch.getD 3 ""
    let amount := mtch.getD 5 ""
    some { date := parseDate now date,
           description := cleanDescription description,
           amount := parseAmount amount,
           paymentMethod := determinePaymentMethod description,
           suggestedCategory := suggestCategory description,
           type := "withdrawal",
           rawData := none }
  else if 4 ≤ mtch.length then
    if mtch.any (fun part => containsCI part "dr" || containsCI part "debit") then
      let date := (mtch.find? (fun part => reTest dateTok part.data)).getD ""
      let amountMatches := mtch.filter (fun part => reTest amtComma part.data)
      let amount := (amountMatches.getLast?).getD ""
      let description := (mtch.find? (fun part =>
        5 < part.length ∧ ¬ reTest dateTok part.data = true ∧
        ¬ reFullTest amtComma part.data = true ∧ ¬ drcrFull part = true)).getD "Transaction"
      some { date := parseDate now date,
             description := cleanDescription description,
             amount := parseAmount amount,
             paymentMethod := determinePaymentMethod description,
             suggestedCategory := suggestCategory description,
             type := "withdrawal",
             rawData := none }
    else none
  else none

/-- The template pass: every match of every template, in template order,
through `parseTransactionMatch`. -/
def templateCandidates (now : ℚ) (text : String) : List Transaction :=
  (transactionPatterns.map (fun t =>
    (jsMatchAll t.re t.ng text.data).filterMap (parseTransactionMatch now t))).flatten

/-- `shouldExcludeLine`. -/
def shouldExcludeLine (line : String) : Bool :=
  let lower := lcStr line
  containsSub lower.data "opening balance".data ||
  containsSub lower.data "closing balance".data ||
  containsSub lower.data "page".data ||
  containsSub lower.data "statement".data ||
  containsSub lower.data "account".data ||
  decide (lower.length < 10)

/-- `/dr|cr|debit|credit/gi` global replacement by the empty string
(leftmost scan, alternatives tried in source order at each position);
fueled by the input length, which bounds the number of steps. -/
def removeDrCrAux : Nat → List Char → List Char
  | 0, s => s
  | _ + 1, [] => []
  | fuel + 1, c :: t =>
    if ciPrefix "dr" (c :: t) then removeDrCrAux fuel ((c :: t).drop 2)
    else if ciPrefix "cr" (c :: t) then removeDrCrAux fuel ((c :: t).drop 2)
    else if ciPrefix "debit" (c :: t) then removeDrCrAux fuel ((c :: t).drop 5)
    else if ciPrefix "credit" (c :: t) then removeDrCrAux fuel ((c :: t).drop 6)
    else c :: removeDrCrAux fuel t

def removeDrCrWords (s : List Char) : List Char := removeDrCrAux s.length s

/-- `extractDescriptionFromLine`: delete the date, every amount token and
the debit/credit keywords, then clean. -/
def extractDescriptionFromLine (line dateStr : String) (amountMatches : List String) :
    String :=
  let d := replaceFirst line.data dateStr.data
  let d := amountMatches.foldl (fun acc a => replaceFirst acc a.data) d
  cleanDescription (String.mk (removeDrCrWords d))

/-- One line of `fallbackParsing`. -/
def lineToTx (now : ℚ) (line : List Char) : Option Transaction :=
  if (jsTrim line).isEmpty || shouldExcludeLine (String.mk line) then none
  else
    let dateM := jsMatch dateTok 0 line
    let amountM := (jsMatchAll amtComma 0 line).map (fun m => m.getD 0 "")
    let debitM := containsCI (String.mk line) "dr" || containsCI (String.mk line) "debit" ||
      containsCI (String.mk line) "withdrawal"
    match dateM with
    | none => none
    | some dm =>
      if amountM.isEmpty || !debitM then none
      else
        let dateStr := dm.getD 0 ""
        some { date := parseDate now dateStr,
               description := extractDescriptionFromLine (String.mk line) dateStr amountM,
               amount := parseAmount ((amountM.getLast?).getD ""),
               paymentMethod := determinePaymentMethod (String.mk line),
               suggestedCategory := suggestCategory (String.mk line),
               type := "withdrawal",
               rawData := none }

/-- `fallbackParsing`: line-by-line scan of the raw text. -/
def fallbackParsing (now : ℚ) (text : String) : List Transaction :=
  (splitOnPred (fun c => c = '\n') text.data).filterMap (lineToTx now)

/-- `extractTransactions` (PDF front end): template pass, then the
line-based fallback exactly when the template pass produced nothing. -/
def extractTransactions (now : ℚ) (text : String) : List Transaction :=
  let cands := templateCandidates now text
  if cands.isEmpty then fallbackParsing now text else cands

/-- The exclusion test of the PDF `filterWithdrawals` (its `/i` patterns
applied to the raw description, modelled by lower-casing both sides). -/
def excludeHit (desc : List Char) : Bool :=
  patTest desc [["salary"], ["interest"], ["dividend"], ["refund"], ["credit"], ["deposit"]] ||
  patTest desc [["opening balance"], ["closing balance"]] ||
  startsWithWSWord desc "balance" ||
  startsWithWSWord desc "total"

/-- `filterWithdrawals` (PDF front end). -/
def filterWithdrawals (ts : List Transaction) : List Transaction :=
  ts.filter fun t =>
    if excludeHit (lcStr t.description).data then false
    else (t.type == "withdrawal") && decide (0 < t.amount)

/-- The PDF engine from extracted text to final output
(`parseBankStatement` minus the PDF text extraction). -/
def engine (now : ℚ) (text : String) : List Transaction :=
  filterWithdrawals (extractTransactions now text)

end PdfP

/-! ## Claim-level definitions

Spec-side predicates written from the claims' own wording (to be compared
with the source embeddings above), and the concrete inputs the claims
mention. -/

/-- C3's decision cascade, as the claim words it: type marker containing
"dr"/"debit" → withdrawal; else "cr"/"credit" → not; else a literal `-`
in the raw amount token → withdrawal; else description containing
"withdrawal"/"debit"/"payment" → withdrawal; else description containing
"salary"/"interest"/"credit"/"deposit" → not; else withdrawal. -/
def isWithdrawalClaimSpec (typeStr amountStr descStr : String) : Bool :=
  if containsCI typeStr "dr" || containsCI typeStr "debit" then true
  else if containsCI typeStr "cr" || containsCI typeStr "credit" then false
  else if containsSub amountStr.data "-".data then true
  else if containsCI descStr "withdrawal" || containsCI descStr "debit" ||
    containsCI descStr "payment" then true
  else if containsCI descStr "salary" || containsCI descStr "interest" ||
    containsCI descStr "credit" || containsCI descStr "deposit" then false
  else true

/-- "A line consisting only of `w`" (C4's wording for the balance/total
patterns): the word surrounded by nothing but whitespace. -/
def onlyWordLine (desc : List Char) (w : String) : Bool :=
  let r := desc.dropWhile isJsSpace
  w.data.isPrefixOf r && (r.drop w.length).all isJsSpace

/-- C4's exclusion predicate exactly as the claim states it (both front
ends alike): salary/interest/dividend/refund/cashback, opening/closing
balance, a line consisting only of "balance" or "total", an own-account
transfer phrase — or not typed "withdrawal", or amount ≤ 0. -/
def claimDrops (t : Transaction) : Bool :=
  patTest (lcStr t.description).data
    [["salary"], ["interest"], ["dividend"], ["refund"], ["cashback"]] ||
  patTest (lcStr t.description).data [["opening balance"], ["closing balance"]] ||
  onlyWordLine (lcStr t.description).data "balance" ||
  onlyWordLine (lcStr t.description).data "total" ||
  patTest (lcStr t.description).data [["transfer", "own", "account"]] ||
  !(t.type == "withdrawal") || !(decide (0 < t.amount))

/-- The amended C4 exclusion predicate for the spreadsheet front end:
as `claimDrops`, but the balance/total patterns only require the
description to *begin* with the word (after optional whitespace), matching
the unanchored `^\s*balance\s*` regexes. -/
def excelDropSpec (t : Transaction) : Bool :=
  patTest (lcStr t.description).data
    [["salary"], ["interest"], ["dividend"], ["refund"], ["cashback"]] ||
  patTest (lcStr t.description).data [["opening balance"], ["closing balance"]] ||
  startsWithWSWord (lcStr t.description).data "balance" ||
  startsWithWSWord (lcStr t.description).data "total" ||
  patTest (lcStr t.description).data [["transfer", "own", "account"]] ||
  !(t.type == "withdrawal") || !(decide (0 < t.amount))

/-- The amended C4 exclusion predicate for the PDF front end: the word
list is salary/interest/dividend/refund/credit/deposit (no cashback), the
balance/total patterns are begins-with, and there is no own-account
transfer pattern. -/
def pdfDropSpec (t : Transaction) : Bool :=
  patTest (lcStr t.description).data
    [["salary"], ["interest"], ["dividend"], ["refund"], ["credit"], ["deposit"]] ||
  patTest (lcStr t.description).data [["opening balance"], ["closing balance"]] ||
  startsWithWSWord (lcStr t.description).data "balance" ||
  startsWithWSWord (lcStr t.description).data "total" ||
  !(t.type == "withdrawal") || !(decide (0 < t.amount))

/-- The table of C5: header row and one Swiggy debit row. -/
def tableC5 : List (List CellValue) :=
  [[.str "Date", .str "Particulars", .str "Withdrawals", .str "Dr/Cr"],
   [.str "01/03/2024", .str "Swiggy Order", .str "450.00", .str "Dr"]]

/-- The same table with the type cell flipped to `Cr` (C3). -/
def tableCr : List (List CellValue) :=
  [[.str "Date", .str "Particulars", .str "Withdrawals", .str "Dr/Cr"],
   [.str "01/03/2024", .str "Swiggy Order", .str "450.00", .str "Cr"]]

/-- A table whose date cell parses with no format, forcing the
current-date fallback (C9). -/
def tableNoDate : List (List CellValue) :=
  [[.str "Date", .str "Particulars", .str "Withdrawals", .str "Dr/Cr"],
   [.str "nodate", .str "shop trip", .str "100.00", .str "Dr"]]

/-- C6's counterexample table: the date header on row 0, the description
header on row 1, so that no single row resolves two fields by itself. -/
def tableSplitHeaders : List (List CellValue) :=
  [[.str "date"], [.str "particulars"]]

/-- How many of the four fields one row resolves from its own header text
alone (the per-row reading of C6). -/
def perRowResolved (row : List CellValue) : Nat :=
  ExcelP.foundCount (ExcelP.rowPass true row ⟨-1, -1, -1, -1, -1⟩)

/-- One header-scan step over a fold: empty rows are skipped, other rows
go through the exact-then-fuzzy pass. -/
def scanFold (m : ExcelP.ColumnMapping) (l : List (List CellValue)) : ExcelP.ColumnMapping :=
  l.foldl (fun m row => if row.isEmpty then m else ExcelP.rowPass true row m) m

/-- The cumulative scan state of the amended C6: the column mapping after
processing the first `k` scanned rows (within the 10-row window, empty
rows skipped), starting from the all-unresolved mapping. -/
def scanState (jsonData : List (List CellValue)) (k : Nat) : ExcelP.ColumnMapping :=
  scanFold ⟨-1, -1, -1, -1, -1⟩ ((jsonData.take 10).take k)

/-- Row `i` qualifies (amended C6): after it is processed, at least two of
the four field indices are cumulatively resolved. -/
def qualifiesAt (jsonData : List (List CellValue)) (i : Nat) : Bool :=
  2 ≤ ExcelP.foundCount (scanState jsonData (i + 1))

/-- A transaction dropped by the claim-C4 predicate on neither reading:
used to exhibit the unanchored balance pattern. -/
def txBalT : Transaction :=
  { date := some 0, description := "balance transfer payment", amount := 100,
    paymentMethod := "Bank", suggestedCategory := "Bank Transactions",
    type := "withdrawal", rawData := none }

/-- A cashback-described withdrawal (C4: the claim drops it, the PDF front
end does not). -/
def txCashback : Transaction :=
  { date := some 0, description := "cashback offer redemption", amount := 100,
    paymentMethod := "Bank", suggestedCategory := "Bank Transactions",
    type := "withdrawal", rawData := none }

/-- C7's document: no template matches, but the single line carries a
date-shaped token, an amount-shaped token and a debit word. -/
def textC7 : String := "01/02/2024 cash withdrawal spent 100.00"

/-- A document matched by the generic slash-date template (C8). -/
def textC8 : String := "01/02/2024 swiggy order 450.00 Dr"

/-- C7's fallback-line qualification: the line survives the skip tests and
carries a date-shaped token, at least one currency-shaped token, and a
debit-indicating word. -/
def fallbackQualifies (line : List Char) : Bool :=
  !(jsTrim line).isEmpty && !(PdfP.shouldExcludeLine (String.mk line)) &&
  (jsMatch PdfP.dateTok 0 line).isSome &&
  !(jsMatchAll PdfP.amtComma 0 line).isEmpty &&
  (containsCI (String.mk line) "dr" || containsCI (String.mk line) "debit" ||
    containsCI (String.mk line) "withdrawal")

/-- A date cell on which the spreadsheet `parseDate` never consults the
clock: a number, or a string that one of the three formats or the locale
parse accepts (amended C9). -/
def dateCellDeterministic : Option CellValue → Bool
  | none => true
  | some (.num _) => true
  | some (.str s) =>
    (ExcelP.tryFormats ExcelP.formats (jsTrim s.data)).isSome ||
      (dateParseModel (jsTrim s.data)).isSome

/-- Amended C9 side condition: in every data row (those after the detected
header row), the cell read as a date either is not truthy (the row is
skipped) or parses without the current-date fallback. -/
def excelDateDet (jsonData : List (List CellValue)) : Prop :=
  ∀ row ∈ jsonData.drop ((ExcelP.detectColumns jsonData).headerRow + 1).toNat,
    truthy (rowGet row (ExcelP.detectColumns jsonData).dateColumn) = true →
    dateCellDeterministic (rowGet row (ExcelP.detectColumns jsonData).dateColumn) = true

/-- Two tables agreeing on their first 10 rows but not beyond (the C6
window property). -/
def tableWindowA : List (List CellValue) := tableC5 ++ List.replicate 9 []

def tableWindowB : List (List CellValue) :=
  tableC5 ++ List.replicate 9 [] ++ [[.str "extra"]]

/-- The transaction the PDF engine emits for `textC8` (the generic
slash-date template matches; the date probe picks the full match string,
whose digit soup yields an out-of-range year, hence an Invalid Date). -/
def txC8 : Transaction :=
  { date := none, description := "swiggy order", amount := 450,
    paymentMethod := "Bank", suggestedCategory := "Food & Dining",
    type := "withdrawal", rawData := none }

/-- The transaction C5's table produces (its date field is the year-first
misparse of `01/03/2024`, a day in September 1906). -/
def txC5 : Transaction :=
  { date := some (-1997568000000), description := "Swiggy Order", amount := 450,
    paymentMethod := "Bank", suggestedCategory := "Food & Dining",
    type := "withdrawal",
    rawData := some ⟨some (.str "01/03/2024"), some (.str "Swiggy Order"),
      some (.str "450.00"), some (.str "Dr")⟩ }

/-! ## Helper lemmas -/

set_option maxRecDepth 4000

/-- The spreadsheet amount normalizer only returns absolute values. -/
theorem excel_parseAmount_nonneg (v : Option CellValue) : 0 ≤ ExcelP.parseAmount v := by
  rcases v with _ | (s | q)
  · simp [ExcelP.parseAmount]
  · unfold ExcelP.parseAmount
    split
    · exact le_rfl
    · dsimp only
      split
      · exact le_rfl
      · exact abs_nonneg _
  · unfold ExcelP.parseAmount
    split
    · exact le_rfl
    · exact abs_nonneg _

/-- Reading a row at the sentinel index `-1` is `undefined`. -/
theorem rowGet_neg_one (row : List CellValue) : rowGet row (-1) = none := rfl

/-- The spreadsheet exclusion filter keeps a transaction exactly when the
amended drop predicate rejects it. -/
theorem excel_keep_eq_not_drop (t : Transaction) :
    (if ExcelP.excludeHit (lcStr t.description).data then false
      else (t.type == "withdrawal") && decide (0 < t.amount)) = !(excelDropSpec t) := by
  unfold excelDropSpec ExcelP.excludeHit
  set a1 := patTest (lcStr t.description).data
    [["salary"], ["interest"], ["dividend"], ["refund"], ["cashback"]] with ha1
  set a2 := patTest (lcStr t.description).data [["opening balance"], ["closing balance"]] with ha2
  set a3 := startsWithWSWord (lcStr t.description).data "balance" with ha3
  set a4 := startsWithWSWord (lcStr t.description).data "total" with ha4
  set a5 := patTest (lcStr t.description).data [["transfer", "own", "account"]] with ha5
  set x := (t.type == "withdrawal") with hx
  set y := decide (0 < t.amount) with hy
  cases a1 <;> cases a2 <;> cases a3 <;> cases a4 <;> cases a5 <;> cases x <;> cases y <;> rfl

/-- The PDF exclusion filter keeps a transaction exactly when the amended
drop predicate rejects it. -/
theorem pdf_keep_eq_not_drop (t : Transaction) :
    (if PdfP.excludeHit (lcStr t.description).data then false
      else (t.type == "withdrawal") && decide (0 < t.amount)) = !(pdfDropSpec t) := by
  unfold pdfDropSpec PdfP.excludeHit
  set a1 := patTest (lcStr t.description).data
    [["salary"], ["interest"], ["dividend"], ["refund"], ["credit"], ["deposit"]] with ha1
  set a2 := patTest (lcStr t.description).data [["opening balance"], ["closing balance"]] with ha2
  set a3 := startsWithWSWord (lcStr t.description).data "balance" with ha3
  set a4 := startsWithWSWord (lcStr t.description).data "total" with ha4
  set x := (t.type == "withdrawal") with hx
  set y := decide (0 < t.amount) with hy
  cases a1 <;> cases a2 <;> cases a3 <;> cases a4 <;> cases x <;> cases y <;> rfl

/-- `filterMap` only depends on the function's values on the list. -/
theorem filterMap_congr_mem {α β : Type} (f g : α → Option β) :
    ∀ l : List α, (∀ a ∈ l, f a = g a) → l.filterMap f = l.filterMap g := by
  intro l h
  induction l with
  | nil => rfl
  | cons a t ih =>
    rw [List.filterMap_cons, List.filterMap_cons, h a (by simp),
      ih (fun x hx => h x (by simp [hx]))]

/-- A spreadsheet row that yields a transaction stores its four original
cells in `rawData`. -/
theorem excel_rowToTx_rawData (now : ℚ) (m : ExcelP.ColumnMapping) (row : List CellValue)
    (t : Transaction) (h : ExcelP.rowToTx now m row = some t) :
    t.rawData = some ⟨rowGet row m.dateColumn, rowGet row m.descriptionColumn,
      rowGet row m.amountColumn, rowGet row m.typeColumn⟩ := by
  simp only [ExcelP.rowToTx] at h
  split at h
  · simp at h
  · split at h
    · simp at h
    · split at h
      · obtain rfl := Option.some.inj h
        rfl
      · simp at h

/-- Every transaction built from a PDF template match has no `rawData`. -/
theorem pdf_parseTransactionMatch_rawData (now : ℚ) (tpl : PdfP.Template)
    (mtch : List String) (t : Transaction)
    (h : PdfP.parseTransactionMatch now tpl mtch = some t) : t.rawData = none := by
  simp only [PdfP.parseTransactionMatch] at h
  split at h
  · obtain rfl := Option.some.inj h
    rfl
  · split at h
    · split at h
      · obtain rfl := Option.some.inj h
        rfl
      · simp at h
    · simp at h

/-- Every transaction built by the PDF line fallback has no `rawData`. -/
theorem pdf_lineToTx_rawData (now : ℚ) (line : List Char) (t : Transaction)
    (h : PdfP.lineToTx now line = some t) : t.rawData = none := by
  simp only [PdfP.lineToTx] at h
  split at h
  · simp at h
  · split at h
    · simp at h
    · split at h
      · simp at h
      · obtain rfl := Option.some.inj h
        rfl

/-- On a clock-independent date cell the spreadsheet `parseDate` never
consults the clock. -/
theorem excel_parseDate_clock (v : Option CellValue) (hv : truthy v = true)
    (hd : dateCellDeterministic v = true) (now now' : ℚ) :
    ExcelP.parseDate now v = ExcelP.parseDate now' v := by
  rcases v with _ | (s | q)
  · simp [truthy] at hv
  · rw [ExcelP.parseDate, ExcelP.parseDate, if_neg (by simp [hv]), if_neg (by simp [hv])]
    dsimp only
    rcases htf : ExcelP.tryFormats ExcelP.formats (jsTrim s.data) with _ | d
    · simp only [htf]
      simp only [dateCellDeterministic, htf] at hd
      simp only [Option.isSome_none, Bool.false_or] at hd
      rcases hdp : dateParseModel (jsTrim s.data) with _ | q2
      · rw [hdp] at hd
        simp at hd
      · simp [hdp]
    · simp [htf]
  · rw [ExcelP.parseDate, ExcelP.parseDate, if_neg (by simp [hv]), if_neg (by simp [hv])]

/-- The row extractor is clock-independent on rows whose date cell is. -/
theorem excel_rowToTx_clock (now now' : ℚ) (m : ExcelP.ColumnMapping) (row : List CellValue)
    (h : truthy (rowGet row m.dateColumn) = true →
      dateCellDeterministic (rowGet row m.dateColumn) = true) :
    ExcelP.rowToTx now m row = ExcelP.rowToTx now' m row := by
  simp only [ExcelP.rowToTx]
  split
  · rfl
  · split
    · rfl
    · rename_i h2
      have hdv : truthy (rowGet row m.dateColumn) = true := by
        cases htv : truthy (rowGet row m.dateColumn) with
        | false => exact absurd (Or.inl htv) h2
        | true => rfl
      rw [excel_parseDate_clock _ hdv (h hdv) now now']

theorem map_isEmpty {α β : Type} (f : α → β) (l : List α) : (l.map f).isEmpty = l.isEmpty := by
  cases l <;> rfl

theorem length_filterMap_eq {α β : Type} (f : α → Option β) :
    ∀ l : List α, (l.filterMap f).length = (l.filter (fun a => (f a).isSome)).length := by
  intro l
  induction l with
  | nil => rfl
  | cons a t ih =>
    rw [List.filterMap_cons, List.filter_cons]
    cases h : f a <;> simp [h, ih]

/-- A fallback line yields a candidate exactly when it passes the skip
tests and carries the three token kinds. -/
theorem lineToTx_isSome (now : ℚ) (line : List Char) :
    (PdfP.lineToTx now line).isSome = fallbackQualifies line := by
  simp only [PdfP.lineToTx, fallbackQualifies, map_isEmpty]
  cases h1 : (jsTrim line).isEmpty <;>
    cases h2 : PdfP.shouldExcludeLine (String.mk line) <;>
    rcases h3 : jsMatch PdfP.dateTok 0 line with _ | dm <;>
    cases h4 : (jsMatchAll PdfP.amtComma 0 line).isEmpty <;>
    cases h5 : (containsCI (String.mk line) "dr" || containsCI (String.mk line) "debit" ||
      containsCI (String.mk line) "withdrawal") <;>
    simp_all

/-- None of the header-scan passes touches the header-row field. -/
theorem applyExact_headerRow (cv : String) (col : Nat) (m : ExcelP.ColumnMapping) :
    (ExcelP.applyExact cv col m).headerRow = m.headerRow := by
  simp only [ExcelP.applyExact]
  split_ifs <;> rfl

theorem applyFuzzy_headerRow (cv : String) (col : Nat) (m : ExcelP.ColumnMapping) :
    (ExcelP.applyFuzzy cv col m).headerRow = m.headerRow := by
  simp only [ExcelP.applyFuzzy]
  split_ifs <;> rfl

theorem cellPass_headerRow (f : Bool) (m : ExcelP.ColumnMapping) (p : Nat × CellValue) :
    (ExcelP.cellPass f m p).headerRow = m.headerRow := by
  simp only [ExcelP.cellPass]
  split
  · rw [applyFuzzy_headerRow, applyExact_headerRow]
  · rw [applyExact_headerRow]

theorem rowPass_headerRow (f : Bool) (row : List CellValue) (m : ExcelP.ColumnMapping) :
    (ExcelP.rowPass f row m).headerRow = m.headerRow := by
  rw [ExcelP.rowPass]
  generalize row.enum = l
  induction l generalizing m with
  | nil => rfl
  | cons p t ih => rw [List.foldl_cons, ih, cellPass_headerRow]

theorem scanFold_nil (m : ExcelP.ColumnMapping) : scanFold m [] = m := rfl

theorem scanFold_cons (m : ExcelP.ColumnMapping) (r : List CellValue)
    (l : List (List CellValue)) :
    scanFold m (r :: l) = scanFold (if r.isEmpty then m else ExcelP.rowPass true r m) l := rfl

theorem scanFold_headerRow (l : List (List CellValue)) :
    ∀ m : ExcelP.ColumnMapping, (scanFold m l).headerRow = m.headerRow := by
  induction l with
  | nil => intro m; rfl
  | cons r t ih =>
    intro m
    rw [scanFold_cons, ih]
    split
    · rfl
    · rw [rowPass_headerRow]

/-- The header-scan loop, characterized: its result is determined by the
least row index whose cumulative pass resolves at least two fields; if
there is none, the loop just folds the whole window. -/
theorem detectScan_spec :
    ∀ (l : List (List CellValue)) (idx : Nat) (m : ExcelP.ColumnMapping),
      ExcelP.foundCount m < 2 →
      (match (List.range l.length).find?
          (fun i => decide (2 ≤ ExcelP.foundCount (scanFold m (l.take (i + 1))))) with
       | some i =>
         ExcelP.detectScan l idx m =
           { scanFold m (l.take (i + 1)) with headerRow := ((idx + i : Nat) : Int) }
       | none => ExcelP.detectScan l idx m = scanFold m l) := by
  intro l
  induction l with
  | nil =>
    intro idx m hm
    simp only [List.length_nil, List.range_zero, List.find?_nil]
    rfl
  | cons row rest ih =>
    intro idx m hm
    simp only [List.length_cons, List.range_succ_eq_map]
    by_cases hEmp : row.isEmpty = true
    · have hstep : ∀ k, scanFold m ((row :: rest).take (k + 1)) = scanFold m (rest.take k) := by
        intro k
        rw [List.take_succ_cons, scanFold_cons, if_pos hEmp]
      have hp0 : ¬(2 ≤ ExcelP.foundCount (scanFold m ((row :: rest).take (0 + 1)))) := by
        rw [hstep 0]
        simpa [scanFold_nil] using Nat.not_le.mpr hm
      rw [List.find?_cons_of_neg _ (by simpa using hp0), List.find?_map]
      have hpq : ((fun i => decide (2 ≤ ExcelP.foundCount
            (scanFold m ((row :: rest).take (i + 1))))) ∘ Nat.succ) =
          (fun i => decide (2 ≤ ExcelP.foundCount (scanFold m (rest.take (i + 1))))) := by
        funext i
        simp only [Function.comp_apply, hstep (i + 1)]
      rw [hpq]
      have hds : ExcelP.detectScan (row :: rest) idx m = ExcelP.detectScan rest (idx + 1) m := by
        simp only [ExcelP.detectScan, if_pos hEmp]
      have hih := ih (idx + 1) m hm
      cases hf : (List.range rest.length).find?
          (fun i => decide (2 ≤ ExcelP.foundCount (scanFold m (rest.take (i + 1))))) with
      | none =>
        rw [hf] at hih
        dsimp only at hih
        simp only [Option.map_none']
        rw [hds, hih, scanFold_cons, if_pos hEmp]
      | some i =>
        rw [hf] at hih
        dsimp only at hih
        simp only [Option.map_some', Nat.succ_eq_add_one]
        rw [hds, hih, hstep (i + 1)]
        have harith : ((idx + 1 + i : Nat) : Int) = ((idx + (i + 1) : Nat) : Int) := by
          congr 1
          omega
        rw [harith]
    · have hstep : ∀ k, scanFold m ((row :: rest).take (k + 1)) =
          scanFold (ExcelP.rowPass true row m) (rest.take k) := by
        intro k
        rw [List.take_succ_cons, scanFold_cons, if_neg hEmp]
      by_cases h0 : 2 ≤ ExcelP.foundCount (ExcelP.rowPass true row m)
      · have hp0 : 2 ≤ ExcelP.foundCount (scanFold m ((row :: rest).take (0 + 1))) := by
          rw [hstep 0]
          simpa [scanFold_nil] using h0
        rw [List.find?_cons_of_pos _ (by simpa using hp0)]
        dsimp only
        have hds : ExcelP.detectScan (row :: rest) idx m =
            { ExcelP.rowPass true row m with headerRow := (idx : Int) } := by
          simp only [ExcelP.detectScan, if_neg hEmp]
          rw [if_pos h0]
        rw [hds, hstep 0]
        simp [scanFold_nil]
      · have hp0 : ¬(2 ≤ ExcelP.foundCount (scanFold m ((row :: rest).take (0 + 1)))) := by
          rw [hstep 0]
          simpa [scanFold_nil] using h0
        rw [List.find?_cons_of_neg _ (by simpa using hp0), List.find?_map]
        have hpq : ((fun i => decide (2 ≤ ExcelP.foundCount
              (scanFold m ((row :: rest).take (i + 1))))) ∘ Nat.succ) =
            (fun i => decide (2 ≤ ExcelP.foundCount
              (scanFold (ExcelP.rowPass true row m) (rest.take (i + 1))))) := by
          funext i
          simp only [Function.comp_apply, hstep (i + 1)]
        rw [hpq]
        have hds : ExcelP.detectScan (row :: rest) idx m =
            ExcelP.detectScan rest (idx + 1) (ExcelP.rowPass true row m) := by
          simp only [ExcelP.detectScan, if_neg hEmp]
          rw [if_neg h0]
        have hih := ih (idx + 1) (ExcelP.rowPass true row m) (Nat.not_le.mp h0)
        cases hf : (List.range rest.length).find?
            (fun i => decide (2 ≤ ExcelP.foundCount
              (scanFold (ExcelP.rowPass true row m) (rest.take (i + 1))))) with
        | none =>
          rw [hf] at hih
          dsimp only at hih
          simp only [Option.map_none']
          rw [hds, hih, scanFold_cons, if_neg hEmp]
        | some i =>
          rw [hf] at hih
          dsimp only at hih
          simp only [Option.map_some', Nat.succ_eq_add_one]
          rw [hds, hih, hstep (i + 1)]
          have harith : ((idx + 1 + i : Nat) : Int) = ((idx + (i + 1) : Nat) : Int) := by
            congr 1
            omega
          rw [harith]

theorem headD_take10 (d : List (List CellValue)) : d.headD [] = (d.take 10).headD [] := by
  cases d <;> rfl

/-! ## Claim theorems -/

/-- C1: the claim says both `parseDate` variants read a `D/M/YYYY` string
day-first. The PDF one does, but the spreadsheet one misfires: its
`DD/MM/YYYY` regex source also contains `(\d{4})`, so the
year-first destructuring branch runs and `01/03/2024` becomes
`new Date(1, 2, 2024)` — a day in 1906 — instead of 1 March 2024 as the
code's own comments intend. -/
theorem C1_parseDate_day_first :
    ExcelP.parseDate 0 (some (.str "01/03/2024")) = some (newDateYMD 1 2 2024) ∧
    newDateYMD 1 2 2024 ≠ newDateYMD 2024 2 1 ∧
    PdfP.parseDate 0 "01/03/2024" = some (newDateYMD 2024 2 1) ∧
    newDateYMD 2024 2 1 = (daysFromCivil 2024 3 1 : ℚ) * 86400000 ∧
    containsSub ExcelP.fmt1Src.data ExcelP.yyyyNeedle.data = true :=
  ⟨by with_unfolding_all rfl, by with_unfolding_all decide, by with_unfolding_all rfl,
    by with_unfolding_all rfl, by decide⟩

/-- C2 counterexample: the claim's sign-insensitivity fails on the PDF
front end, whose `parseAmount` keeps the sign of `-1,234.50` and rejects
the parenthesized form outright. -/
theorem C2_parseAmount_cex :
    PdfP.parseAmount "-1,234.50" = -1234.5 ∧
    PdfP.parseAmount "-1,234.50" ≠ PdfP.parseAmount "1234.50" ∧
    PdfP.parseAmount "(1234.50)" = 0 :=
  ⟨by with_unfolding_all rfl, by with_unfolding_all decide, by with_unfolding_all rfl⟩

/-- C2 amended: the spreadsheet `parseAmount` is sign-insensitive and
strips currency symbols, separators, parentheses and sign markers,
returning the absolute value (0 on failure or empty input); the PDF
`parseAmount` strips only commas and whitespace and returns the signed
parse (0 on failure or empty input). -/
theorem C2_parseAmount_amended :
    (∀ v, 0 ≤ ExcelP.parseAmount v) ∧
    ExcelP.parseAmount (some (.str "-1,234.50")) = 1234.5 ∧
    ExcelP.parseAmount (some (.str "1234.50")) = 1234.5 ∧
    ExcelP.parseAmount (some (.str "(1234.50)")) = 1234.5 ∧
    ExcelP.parseAmount (some (.str "₹1,234.50")) = 1234.5 ∧
    ExcelP.parseAmount (some (.str "")) = 0 ∧
    ExcelP.parseAmount (some (.str "abc")) = 0 ∧
    ExcelP.parseAmount none = 0 ∧
    PdfP.parseAmount "-1,234.50" = -1234.5 ∧
    PdfP.parseAmount "(1234.50)" = 0 ∧
    PdfP.parseAmount "1234.50" = 1234.5 ∧
    PdfP.parseAmount "" = 0 :=
  ⟨excel_parseAmount_nonneg, by with_unfolding_all rfl, by with_unfolding_all rfl,
    by with_unfolding_all rfl, by with_unfolding_all rfl, by with_unfolding_all rfl,
    by with_unfolding_all rfl, by with_unfolding_all rfl, by with_unfolding_all rfl,
    by with_unfolding_all rfl, by with_unfolding_all rfl, by with_unfolding_all rfl⟩

/-- C3: the debit classifier computes exactly the claimed priority cascade
(type marker dr/debit, then cr/credit, then a literal minus in the raw
amount token, then debit words, then credit words, then the
include-by-default), and consequently the C5 table with its type cell
flipped to `Cr` produces zero output transactions. -/
theorem C3_isWithdrawal_priority :
    (∀ (tv av : Option CellValue) (d : String),
      ExcelP.isWithdrawal tv av d = isWithdrawalClaimSpec (jsStringOr tv) (jsStringOr av) d) ∧
    (∀ now : ℚ, ExcelP.engine now tableCr = []) :=
  ⟨fun _ _ _ => by with_unfolding_all rfl, fun _ => by with_unfolding_all rfl⟩

/-- C4 counterexample: the claim's exclusion list is wrong in both
directions. The spreadsheet filter drops "balance transfer payment"
although it only *begins* with "balance" (the regex `^\s*balance\s*` has
no end anchor, so "consisting only of balance" is not required), and the
PDF filter keeps a "cashback" withdrawal because its word list has no
cashback entry. -/
theorem C4_exclusion_cex :
    ExcelP.filterWithdrawals [txBalT] = [] ∧ claimDrops txBalT = false ∧
    PdfP.filterWithdrawals [txCashback] = [txCashback] ∧ claimDrops txCashback = true :=
  ⟨by with_unfolding_all rfl, by with_unfolding_all rfl, by with_unfolding_all rfl,
    by with_unfolding_all rfl⟩

/-- C4 amended: a candidate survives the spreadsheet exclusion engine iff
it came in and its description matches none of
salary/interest/dividend/refund/cashback, opening/closing balance, a
description *beginning* with "balance" or "total" (after optional
whitespace), or a transfer-own-account phrase, and it is typed
"withdrawal" with positive amount; the PDF variant uses the word list
salary/interest/dividend/refund/credit/deposit and has no own-account
pattern. -/
theorem C4_exclusion_amended : ∀ (ts : List Transaction) (t : Transaction),
    (t ∈ ExcelP.filterWithdrawals ts ↔ t ∈ ts ∧ excelDropSpec t = false) ∧
    (t ∈ PdfP.filterWithdrawals ts ↔ t ∈ ts ∧ pdfDropSpec t = false) := by
  intro ts t
  constructor
  · rw [ExcelP.filterWithdrawals, List.mem_filter]
    simp only [excel_keep_eq_not_drop t, Bool.not_eq_true']
  · rw [PdfP.filterWithdrawals, List.mem_filter]
    simp only [pdf_keep_eq_not_drop t, Bool.not_eq_true']

/-- C5: on the header row Date/Particulars/Withdrawals/Dr-Cr with the
single data row 01/03/2024, Swiggy Order, 450.00, Dr, the spreadsheet
engine outputs exactly one transaction, with amount 450, suggested
category "Food & Dining" and type "withdrawal" (whatever the clock). -/
theorem C5_swiggy_row : ∀ now : ℚ,
    ExcelP.engine now tableC5 = [txC5] ∧
    txC5.amount = 450 ∧ txC5.suggestedCategory = "Food & Dining" ∧
    txC5.type = "withdrawal" :=
  fun _ => ⟨by with_unfolding_all rfl, rfl, rfl, rfl⟩

/-- C6 counterexample: the scan accumulates resolutions across rows, so on
a table whose date header is on row 0 and description header on row 1,
row 1 is selected as the header row even though each row resolves only
one field from its own text — under the claim's per-row reading no row
qualifies and the fallback would have forced row 0. -/
theorem C6_detectColumns_cex :
    (ExcelP.detectColumns tableSplitHeaders).headerRow = 1 ∧
    perRowResolved [CellValue.str "date"] = 1 ∧
    perRowResolved [CellValue.str "particulars"] = 1 :=
  ⟨by decide, by decide, by decide⟩

/-- C6 amended: column detection depends only on the first 10 rows; the
header row is the least scanned index after which at least two of the four
field indices are *cumulatively* resolved (resolutions persist across
rows), the scan stopping there with the accumulated mapping; if no index
qualifies within the window, the first row is forced as header row and
only the exact-match pass is re-run against it (on top of the scan's
accumulated columns) — possibly leaving all four indices unresolved, as
the single-row table [["x"]] shows. -/
theorem C6_detectColumns_amended :
    (∀ jsonData : List (List CellValue),
      (∀ d' : List (List CellValue), jsonData.take 10 = d'.take 10 →
        ExcelP.detectColumns jsonData = ExcelP.detectColumns d') ∧
      (match (List.range (jsonData.take 10).length).find? (qualifiesAt jsonData) with
       | some i =>
         (ExcelP.detectColumns jsonData).headerRow = (i : Int) ∧
         ExcelP.detectColumns jsonData =
           { scanState jsonData (i + 1) with headerRow := (i : Int) }
       | none =>
         ExcelP.detectColumns jsonData =
           ExcelP.rowPass false (jsonData.headD [])
             { scanState jsonData 10 with headerRow := 0 })) ∧
    ExcelP.detectColumns [[.str "x"]] = ⟨-1, -1, -1, -1, 0⟩ := by
  constructor
  · intro d
    constructor
    · intro d' h
      rw [ExcelP.detectColumns, ExcelP.detectColumns, headD_take10 d, headD_take10 d', h]
    · have hspec := detectScan_spec (d.take 10) 0 ⟨-1, -1, -1, -1, -1⟩ (by decide)
      have hq : (qualifiesAt d) = (fun i => decide (2 ≤ ExcelP.foundCount
          (scanFold ⟨-1, -1, -1, -1, -1⟩ ((d.take 10).take (i + 1))))) := rfl
      rw [hq]
      cases hf : (List.range (d.take 10).length).find? (fun i => decide (2 ≤ ExcelP.foundCount
          (scanFold ⟨-1, -1, -1, -1, -1⟩ ((d.take 10).take (i + 1))))) with
      | some i =>
        rw [hf] at hspec
        dsimp only at hspec ⊢
        simp only [Nat.zero_add] at hspec
        simp only [ExcelP.detectColumns]
        rw [hspec]
        have hne : ¬((({ scanFold ⟨-1, -1, -1, -1, -1⟩ ((d.take 10).take (i + 1)) with
            headerRow := ((i : Nat) : Int) } : ExcelP.ColumnMapping)).headerRow = -1) := by
          show ¬(((i : Nat) : Int) = -1)
          omega
        rw [if_neg hne]
        exact ⟨rfl, rfl⟩
      | none =>
        rw [hf] at hspec
        dsimp only at hspec ⊢
        simp only [ExcelP.detectColumns]
        rw [hspec, if_pos (by rw [scanFold_headerRow])]
        have hss : scanState d 10 = scanFold ⟨-1, -1, -1, -1, -1⟩ (d.take 10) := by
          simp [scanState, List.take_take]
        rw [hss]
  · decide

/-- C6 witness: the window property at two concrete tables agreeing on
their first 10 rows, and the earliest-qualifying-row characterization at
the C5 table (whose row 0 qualifies). -/
theorem C6_detectColumns_amended_witness :
    ExcelP.detectColumns tableWindowA = ExcelP.detectColumns tableWindowB ∧
    (ExcelP.detectColumns tableC5).headerRow = 0 := by
  constructor
  · exact (C6_detectColumns_amended.1 tableWindowA).1 tableWindowB (by decide)
  · have h := (C6_detectColumns_amended.1 tableC5).2
    rw [show (List.range (tableC5.take 10).length).find? (qualifiesAt tableC5) = some 0 from
      by decide] at h
    exact h.1

/-- C7: on the free-text path, the line fallback runs exactly when the
template pass produced zero candidates; the fallback emits one candidate
per line that survives the skip tests (length, non-transaction markers)
and carries a date-shaped token, a currency-shaped token and a debit word;
hence a document with no template candidate but one such line gives a
non-empty result. -/
theorem C7_fallback_characterization : ∀ (now : ℚ) (text : String),
    (PdfP.templateCandidates now text ≠ [] →
      PdfP.extractTransactions now text = PdfP.templateCandidates now text) ∧
    (PdfP.templateCandidates now text = [] →
      PdfP.extractTransactions now text = PdfP.fallbackParsing now text ∧
      (PdfP.fallbackParsing now text).length =
        ((splitOnPred (fun c => c = '\n') text.data).filter fallbackQualifies).length ∧
      ((∃ line ∈ splitOnPred (fun c => c = '\n') text.data, fallbackQualifies line = true) →
        PdfP.extractTransactions now text ≠ [])) := by
  intro now text
  have hext : PdfP.extractTransactions now text =
      if (PdfP.templateCandidates now text).isEmpty then PdfP.fallbackParsing now text
      else PdfP.templateCandidates now text := rfl
  constructor
  · intro h
    rw [hext, if_neg]
    simp [List.isEmpty_iff, h]
  · intro h
    have hemp : (PdfP.templateCandidates now text).isEmpty = true := by
      simp [List.isEmpty_iff, h]
    have hfb : PdfP.extractTransactions now text = PdfP.fallbackParsing now text := by
      rw [hext, if_pos hemp]
    refine ⟨hfb, ?_, ?_⟩
    · rw [PdfP.fallbackParsing, length_filterMap_eq]
      exact congrArg List.length (List.filter_congr (fun line _ => lineToTx_isSome now line))
    · rintro ⟨line, hmem, hq⟩
      rw [hfb, PdfP.fallbackParsing]
      intro hnil
      have hnone := List.filterMap_eq_nil_iff.mp hnil line hmem
      have h2 : (PdfP.lineToTx now line).isSome = false := by rw [hnone]; rfl
      rw [lineToTx_isSome] at h2
      rw [hq] at h2
      exact absurd h2 (by simp)

/-- C7 witness: `textC7` produces zero template candidates, its one line
qualifies, and the engine result is non-empty. -/
theorem C7_fallback_characterization_witness :
    PdfP.templateCandidates 0 textC7 = [] ∧ PdfP.extractTransactions 0 textC7 ≠ [] := by
  have h1 : PdfP.templateCandidates 0 textC7 = [] := by with_unfolding_all rfl
  refine ⟨h1, ((C7_fallback_characterization 0 textC7).2 h1).2.2 ?_⟩
  exact ⟨textC7.data, by with_unfolding_all decide, by with_unfolding_all decide⟩

/-- C8 counterexample: the PDF engine emits a transaction with no
`rawData` field at all, so not every engine transaction carries the
original unnormalized values. -/
theorem C8_rawData_cex :
    (PdfP.engine 0 textC8).map (fun t => t.rawData) = [none] := by
  with_unfolding_all rfl

/-- C8 amended: every transaction emitted by the spreadsheet engine
carries `rawData` holding the four original cells of its source row; every
transaction emitted by the PDF engine carries no `rawData` at all. -/
theorem C8_rawData_amended :
    (∀ (now : ℚ) (jsonData : List (List CellValue)) (t : Transaction),
      t ∈ ExcelP.engine now jsonData →
      ∃ row ∈ jsonData,
        t.rawData = some ⟨rowGet row (ExcelP.detectColumns jsonData).dateColumn,
          rowGet row (ExcelP.detectColumns jsonData).descriptionColumn,
          rowGet row (ExcelP.detectColumns jsonData).amountColumn,
          rowGet row (ExcelP.detectColumns jsonData).typeColumn⟩) ∧
    (∀ (now : ℚ) (text : String) (t : Transaction),
      t ∈ PdfP.engine now text → t.rawData = none) := by
  constructor
  · intro now d t ht
    rw [ExcelP.engine, ExcelP.filterWithdrawals] at ht
    have ht1 := (List.mem_filter.mp ht).1
    rw [ExcelP.extractTransactions] at ht1
    obtain ⟨row, hrow, heq⟩ := List.mem_filterMap.mp ht1
    exact ⟨row, List.mem_of_mem_drop hrow, excel_rowToTx_rawData _ _ _ _ heq⟩
  · intro now text t ht
    rw [PdfP.engine, PdfP.filterWithdrawals] at ht
    have ht1 := (List.mem_filter.mp ht).1
    simp only [PdfP.extractTransactions] at ht1
    split at ht1
    · rw [PdfP.fallbackParsing] at ht1
      obtain ⟨line, _, heq⟩ := List.mem_filterMap.mp ht1
      exact pdf_lineToTx_rawData _ _ _ heq
    · rw [PdfP.templateCandidates] at ht1
      obtain ⟨l, hl, htl⟩ := List.mem_flatten.mp ht1
      obtain ⟨tpl, _, rfl⟩ := List.mem_map.mp hl
      obtain ⟨mtch, _, heq⟩ := List.mem_filterMap.mp htl
      exact pdf_parseTransactionMatch_rawData _ _ _ _ heq

/-- C8 witness: the amended statement applied to the C5 table's
transaction and to the template-path transaction of `textC8`. -/
theorem C8_rawData_amended_witness :
    (∃ row ∈ tableC5,
      txC5.rawData = some ⟨rowGet row (ExcelP.detectColumns tableC5).dateColumn,
        rowGet row (ExcelP.detectColumns tableC5).descriptionColumn,
        rowGet row (ExcelP.detectColumns tableC5).amountColumn,
        rowGet row (ExcelP.detectColumns tableC5).typeColumn⟩) ∧
    txC8.rawData = none := by
  constructor
  · refine C8_rawData_amended.1 0 tableC5 txC5 ?_
    rw [show ExcelP.engine 0 tableC5 = [txC5] from by with_unfolding_all rfl]
    exact List.mem_singleton.mpr rfl
  · refine C8_rawData_amended.2 0 textC8 txC8 ?_
    rw [show PdfP.engine 0 textC8 = [txC8] from by with_unfolding_all rfl]
    exact List.mem_singleton.mpr rfl

/-- C9 counterexample: the engine is not a function of the document alone
— on a table whose date cell parses with no supported format, the
current-date fallback leaks the clock into the output, so two runs on the
byte-identical document differ. -/
theorem C9_determinism_cex :
    ExcelP.engine 0 tableNoDate ≠ ExcelP.engine 86400000 tableNoDate := by
  with_unfolding_all decide

/-- C9 amended: the engine is deterministic on every document whose
truthy date cells all parse without the current-date fallback (numeric
serials, format-matching strings, or locale-parseable strings); likewise
the PDF `parseDate` consults the clock only on empty input. -/
theorem C9_determinism_amended :
    (∀ (now now' : ℚ) (jsonData : List (List CellValue)), excelDateDet jsonData →
      ExcelP.engine now jsonData = ExcelP.engine now' jsonData) ∧
    (∀ (now now' : ℚ) (s : String), s ≠ "" →
      PdfP.parseDate now s = PdfP.parseDate now' s) := by
  constructor
  · intro now now' d h
    rw [ExcelP.engine, ExcelP.engine]
    congr 1
    rw [ExcelP.extractTransactions, ExcelP.extractTransactions]
    refine filterMap_congr_mem _ _ _ (fun row hrow => ?_)
    exact excel_rowToTx_clock now now' _ row (h row hrow)
  · intro now now' s hs
    rw [PdfP.parseDate, PdfP.parseDate, if_neg hs, if_neg hs]

/-- C9 witness: determinism on the C5 table (whose date cell matches a
format) at two different clocks, and on a non-empty PDF date string. -/
theorem C9_determinism_amended_witness :
    ExcelP.engine 0 tableC5 = ExcelP.engine 86400000 tableC5 ∧
    PdfP.parseDate 0 "01/03/2024" = PdfP.parseDate 86400000 "01/03/2024" := by
  constructor
  · refine C9_determinism_amended.1 0 86400000 tableC5 ?_
    intro row hrow htr
    have hone : row = [CellValue.str "01/03/2024", CellValue.str "Swiggy Order",
        CellValue.str "450.00", CellValue.str "Dr"] := by
      rw [show tableC5.drop ((ExcelP.detectColumns tableC5).headerRow + 1).toNat =
        [[CellValue.str "01/03/2024", CellValue.str "Swiggy Order",
          CellValue.str "450.00", CellValue.str "Dr"]] from by decide] at hrow
      exact List.mem_singleton.mp hrow
    subst hone
    with_unfolding_all rfl
  · exact C9_determinism_amended.2 0 86400000 "01/03/2024" (by decide)

/-- C10: with the date or the amount column unresolved (sentinel -1),
every row's corresponding cell reads as `undefined`, every row is skipped
as a non-transaction row, and the extractor returns the empty list on
every table. -/
theorem C10_unresolved_columns :
    ∀ (now : ℚ) (jsonData : List (List CellValue)) (m : ExcelP.ColumnMapping),
    m.dateColumn = -1 ∨ m.amountColumn = -1 →
    ExcelP.extractTransactions now jsonData m = [] := by
  intro now jsonData m h
  rw [ExcelP.extractTransactions]
  refine List.filterMap_eq_nil_iff.mpr (fun row _ => ?_)
  rw [ExcelP.rowToTx]
  split
  · rfl
  · rcases h with h | h <;> rw [h, rowGet_neg_one] <;> simp [truthy]

/-- C10 witness: a concrete table and a mapping with unresolved date
column produce no transactions. -/
theorem C10_unresolved_columns_witness :
    ExcelP.extractTransactions 0 [[.str "x", .str "100"]] ⟨-1, 0, 1, -1, 0⟩ = [] :=
  C10_unresolved_columns 0 [[.str "x", .str "100"]] ⟨-1, 0, 1, -1, 0⟩ (Or.inl rfl)
